import Mathlib

/-!
# Verification of the raspberry_car_by_controller voice-pipeline core

Shallow embedding of the core components of the repository, translated
from the Python sources:

* `src/car/audio/vad.py`              — `VADDetector` (voice-activity state machine)
* `src/server/api/protocol.py`        — wire frames and `parse_frame`
* `src/server/pipeline/streaming_manager.py` — the stream queues
* `src/server/models/asr_engine.py`   — `detect_wakeup_word`
* `src/server/pipeline/conversation.py` — the conversation pipeline
  (`_asr_to_llm`, `_llm_chat_and_parse`, `run_pipeline`)
* `src/server/api/server.py`          — `PetCarServer._handle_connection` guard

External collaborators (the WebRTC VAD backend, the ASR/LLM/TTS engines,
the network) are modelled as parameters: the classification function of
the VAD, the per-chunk interim transcripts produced by the ASR engine and
the reply fragments produced by the LLM engine are inputs of the embedded
functions, exactly as the Python code treats them as opaque engines.
-/

namespace PetCar

/-! ## Voice Activity Detector — src/car/audio/vad.py

PCM byte strings are modelled as `List Nat` (one entry per byte); only
their length and their classification by the (external) detection backend
matter to the VAD state machine. -/

/-- `SUPPORTED_VAD_RATES` — vad.py line 25. -/
def SUPPORTED_VAD_RATES : List Nat := [8000, 16000, 32000, 48000]

/-- `SILENCE_CHUNK_COUNT` — vad.py line 28: the end-of-utterance silence
threshold (`is_silence_end` fires when the count exceeds it). -/
def SILENCE_CHUNK_COUNT : Nat := 50

/-- `maxlen` of the lead `frame_buffer` deque — vad.py line 64:
`SILENCE_CHUNK_COUNT // 2`. -/
def FRAME_BUFFER_MAXLEN : Nat := SILENCE_CHUNK_COUNT / 2

/-- The mutable state of `VADDetector` (vad.py lines 48-64): construction
parameters plus `silence_chunks_count`, `active_speech_detected` and the
bounded `frame_buffer` deque.  The `webrtcvad.Vad` backend object is not
part of the state; it enters `process_chunk` as a classification
function. -/
structure VADDetector where
  sample_rate : Nat
  chunk_duration_ms : Nat
  chunk_size : Nat
  silence_chunks_count : Nat
  active_speech_detected : Bool
  frame_buffer : List (List Nat)
deriving DecidableEq, Repr

/-- `collections.deque(maxlen := m)` append: the new element goes to the
tail and the oldest elements are evicted so that at most `m` remain. -/
def dequeAppend (maxlen : Nat) (buf : List (List Nat)) (x : List Nat) :
    List (List Nat) :=
  let b := buf ++ [x]
  if maxlen < b.length then b.drop (b.length - maxlen) else b

namespace VADDetector

/-- `VADDetector.__init__` (vad.py lines 37-66).  Raising `ValueError` for
an unsupported sample rate — before any state field is assigned — is
modelled by `Except.error`; on a supported rate the state is created with
`chunk_size = sample_rate * chunk_duration_ms * 2 / 1000` (16-bit = 2
bytes; exact for all supported rates, which are multiples of 1000) and
empty counters/buffers.  The aggressiveness argument only parametrizes
the external backend and is omitted. -/
def init (sample_rate chunk_duration_ms : Nat) : Except String VADDetector :=
  if sample_rate ∈ SUPPORTED_VAD_RATES then
    .ok { sample_rate := sample_rate
          chunk_duration_ms := chunk_duration_ms
          chunk_size := sample_rate * chunk_duration_ms * 2 / 1000
          silence_chunks_count := 0
          active_speech_detected := false
          frame_buffer := [] }
  else
    .error "ValueError: sample rate not supported by WebRTC VAD"

/-- `VADDetector.process_chunk` (vad.py lines 69-99).  `classify` is the
external `self._vad.is_speech` backend.  A chunk of the wrong byte length
returns `False` without consulting the backend and without mutating the
state.  On speech: set the active flag, zero the silence count (the
buffer is left untouched — the comment on line 88 defers flushing to
`MicClient`).  On non-speech: increment the silence count only when
already active, and append the frame to `frame_buffer` in every case. -/
def process_chunk (classify : List Nat → Bool) (vad : VADDetector)
    (audio_chunk : List Nat) : Bool × VADDetector :=
  if audio_chunk.length ≠ vad.chunk_size then
    (false, vad)
  else if classify audio_chunk then
    (true, { vad with active_speech_detected := true, silence_chunks_count := 0 })
  else
    let v := if vad.active_speech_detected then
        { vad with silence_chunks_count := vad.silence_chunks_count + 1 }
      else vad
    (false, { v with frame_buffer := dequeAppend FRAME_BUFFER_MAXLEN v.frame_buffer audio_chunk })

/-- `VADDetector.is_silence_end` (vad.py lines 102-114): fires exactly
when speech was active and the silence count strictly exceeds
`SILENCE_CHUNK_COUNT`; on firing it resets the flag, the count and the
buffer. -/
def is_silence_end (vad : VADDetector) : Bool × VADDetector :=
  if vad.active_speech_detected = true ∧ SILENCE_CHUNK_COUNT < vad.silence_chunks_count then
    (true, { vad with active_speech_detected := false
                      silence_chunks_count := 0
                      frame_buffer := [] })
  else
    (false, vad)

/-- `VADDetector.get_buffered_frames` (vad.py lines 116-122): returns the
buffered frames and clears the buffer. -/
def get_buffered_frames (vad : VADDetector) : List (List Nat) × VADDetector :=
  (vad.frame_buffer, { vad with frame_buffer := [] })

/-- `VADDetector.reset` (vad.py lines 124-129). -/
def reset (vad : VADDetector) : VADDetector :=
  { vad with silence_chunks_count := 0
             active_speech_detected := false
             frame_buffer := [] }

end VADDetector

/-- Driving loop of the detector, as used by `MicClient.record_and_send`
(mic_client.py lines 104-113) and the vad.py `__main__` simulation: each
chunk is fed to `process_chunk` and the end-of-utterance signal
`is_silence_end` is sampled after it.  Returns the signal emitted after
each chunk together with the final state.  (`mic_client` consults
`is_silence_end` only on a non-speech chunk while voice is active; in all
other states the call returns `false` without mutating anything, so
sampling it after every chunk yields the same signals and states.) -/
def runVad (classify : List Nat → Bool) :
    VADDetector → List (List Nat) → List Bool × VADDetector
  | vad, [] => ([], vad)
  | vad, chunk :: rest =>
    let p := VADDetector.process_chunk classify vad chunk
    let e := VADDetector.is_silence_end p.2
    let r := runVad classify e.2 rest
    (e.1 :: r.1, r.2)

/-- Fold of `process_chunk` alone over a chunk sequence (the buffer
invariants of the state machine are about this mutation path). -/
def foldProcess (classify : List Nat → Bool) (vad : VADDetector)
    (chunks : List (List Nat)) : VADDetector :=
  chunks.foldl (fun v c => (VADDetector.process_chunk classify v c).2) vad

/-! ## Frame codec — src/server/api/protocol.py

The frames are serialized with `json.dumps(asdict(self))` and parsed with
`json.loads` followed by key-set dispatch.  `json.loads (json.dumps d)`
returns an object equal to `d` for the dictionaries produced here (string
keys; int/str/bool/null/dict values), so the codec is embedded at the
JSON-value level: `to_json` produces a `JsonValue` object and
`parse_frame` consumes one.  A transport string that is not valid JSON
makes `json.loads` raise `JSONDecodeError`, which `parse_frame` turns
into `None`; such strings never arise from `to_json` and stay outside
this embedding. -/

/-- A JSON value, as produced by `json.loads`. -/
inductive JsonValue where
  | null
  | bool (b : Bool)
  | int (n : Int)
  | str (s : String)
  | arr (items : List JsonValue)
  | obj (fields : List (String × JsonValue))

/-- `AudioFrame` dataclass (protocol.py lines 21-34): `seq`, `pcm_data`
(raw bytes, modelled as `List Nat`), `is_final` (default `False`). -/
structure AudioFrame where
  seq : Int
  pcm_data : List Nat
  is_final : Bool
deriving DecidableEq, Repr

/-- `TextFrame` dataclass (protocol.py lines 46-59). -/
structure TextFrame where
  seq : Int
  text : String
  type : String
  is_final : Bool
deriving DecidableEq, Repr

/-- `ControlCmd` dataclass (protocol.py lines 66-78); `extra` is an
optional JSON dictionary (default `None`). -/
structure ControlCmd where
  type : String
  value : String
  extra : Option (List (String × JsonValue))

/-- `StatusMsg` dataclass (protocol.py lines 85-96). -/
structure StatusMsg where
  code : Int
  message : String
  ref_seq : Option Int
deriving DecidableEq, Repr

/-- The tagged union of the four wire-frame kinds (`parse_frame` may
return an instance of any of them). -/
inductive Frame where
  | audio (f : AudioFrame)
  | text (f : TextFrame)
  | control (f : ControlCmd)
  | status (f : StatusMsg)

/-- `AudioFrame.to_json` (protocol.py lines 36-44): `asdict(self)` in
field order, then `del data['pcm_data']` — the PCM payload is dropped
from the JSON header before serialization. -/
def AudioFrame.to_json (f : AudioFrame) : JsonValue :=
  .obj [("seq", .int f.seq), ("is_final", .bool f.is_final)]

/-- `TextFrame.to_json` (protocol.py lines 61-63). -/
def TextFrame.to_json (f : TextFrame) : JsonValue :=
  .obj [("seq", .int f.seq), ("text", .str f.text),
        ("type", .str f.type), ("is_final", .bool f.is_final)]

/-- `ControlCmd.to_json` (protocol.py lines 80-82); `extra = None`
serializes as JSON `null`. -/
def ControlCmd.to_json (f : ControlCmd) : JsonValue :=
  .obj [("type", .str f.type), ("value", .str f.value),
        ("extra", match f.extra with
                  | none => .null
                  | some kvs => .obj kvs)]

/-- `StatusMsg.to_json` (protocol.py lines 98-100); `ref_seq = None`
serializes as JSON `null`. -/
def StatusMsg.to_json (f : StatusMsg) : JsonValue :=
  .obj [("code", .int f.code), ("message", .str f.message),
        ("ref_seq", match f.ref_seq with
                    | none => .null
                    | some n => .int n)]

/-- `'k' in data_dict` — key membership. -/
def hasKey (k : String) (fields : List (String × JsonValue)) : Bool :=
  (fields.lookup k).isSome

/-- `AudioFrame(**data_dict)`: succeeds when every key names a dataclass
field and the non-default fields `seq` and `pcm_data` are present (a
missing or extraneous key raises `TypeError`, which `parse_frame` turns
into `None`).  The dataclass itself performs no value-type checks; the
typed extraction below is exact on every object a well-typed frame can
serialize to, the only inputs the claims quantify over. -/
def buildAudioFrame (fields : List (String × JsonValue)) : Option AudioFrame :=
  if (fields.map Prod.fst).all (["seq", "pcm_data", "is_final"].contains ·) then
    match fields.lookup "seq", fields.lookup "pcm_data" with
    | some (.int s), some (.arr _) =>
      match fields.lookup "is_final" with
      | some (.bool b) => some ⟨s, [], b⟩
      | none => some ⟨s, [], false⟩
      | some _ => none
    | _, _ => none
  else none

/-- `TextFrame(**data_dict)` under the same kwargs discipline. -/
def buildTextFrame (fields : List (String × JsonValue)) : Option TextFrame :=
  if (fields.map Prod.fst).all (["seq", "text", "type", "is_final"].contains ·) then
    match fields.lookup "seq", fields.lookup "text", fields.lookup "type" with
    | some (.int s), some (.str t), some (.str ty) =>
      match fields.lookup "is_final" with
      | some (.bool b) => some ⟨s, t, ty, b⟩
      | none => some ⟨s, t, ty, false⟩
      | some _ => none
    | _, _, _ => none
  else none

/-- `ControlCmd(**data_dict)` under the same kwargs discipline. -/
def buildControlCmd (fields : List (String × JsonValue)) : Option ControlCmd :=
  if (fields.map Prod.fst).all (["type", "value", "extra"].contains ·) then
    match fields.lookup "type", fields.lookup "value" with
    | some (.str ty), some (.str v) =>
      match fields.lookup "extra" with
      | none => some ⟨ty, v, none⟩
      | some .null => some ⟨ty, v, none⟩
      | some (.obj kvs) => some ⟨ty, v, some kvs⟩
      | some _ => none
    | _, _ => none
  else none

/-- `StatusMsg(**data_dict)` under the same kwargs discipline. -/
def buildStatusMsg (fields : List (String × JsonValue)) : Option StatusMsg :=
  if (fields.map Prod.fst).all (["code", "message", "ref_seq"].contains ·) then
    match fields.lookup "code", fields.lookup "message" with
    | some (.int c), some (.str m) =>
      match fields.lookup "ref_seq" with
      | none => some ⟨c, m, none⟩
      | some .null => some ⟨c, m, none⟩
      | some (.int n) => some ⟨c, m, some n⟩
      | some _ => none
    | _, _ => none
  else none

/-- `parse_frame` (protocol.py lines 103-132): dispatch on which key set
is present — `pcm_data` ⇒ `AudioFrame`, `text`+`type` ⇒ `TextFrame`,
`type`+`value` ⇒ `ControlCmd`, `code`+`message` ⇒ `StatusMsg` — and
return `None` on an unrecognized key set, on a constructor `TypeError`
or on non-object input. -/
def parse_frame (v : JsonValue) : Option Frame :=
  match v with
  | .obj fields =>
    if hasKey "pcm_data" fields then (buildAudioFrame fields).map Frame.audio
    else if hasKey "text" fields ∧ hasKey "type" fields then
      (buildTextFrame fields).map Frame.text
    else if hasKey "type" fields ∧ hasKey "value" fields then
      (buildControlCmd fields).map Frame.control
    else if hasKey "code" fields ∧ hasKey "message" fields then
      (buildStatusMsg fields).map Frame.status
    else none
  | _ => none

/-! ## Stream queues — src/server/pipeline/streaming_manager.py

`AudioQueue`, `TextQueue` and `PCMQueue` are three textually identical
classes differing only in the element type (audio bytes, text fragments,
PCM bytes); they are embedded once, polymorphically.  The state is the
ordered sequence of enqueued values — `none` being the end-of-stream
sentinel that `close` enqueues — plus the `is_finished` flag. -/

structure StreamQueue (α : Type) where
  items : List (Option α)
  is_finished : Bool
deriving DecidableEq, Repr

namespace StreamQueue

/-- `__init__`: an empty `asyncio.Queue` and `is_finished = False`. -/
def empty : StreamQueue α := ⟨[], false⟩

/-- `put` (streaming_manager.py lines 20-23, 67-70, 105-108):
`if not self.is_finished: await self.queue.put(chunk)` — after `close`
the chunk is silently dropped; no exception is raised and the queue is
left unchanged. -/
def put (q : StreamQueue α) (chunk : α) : StreamQueue α :=
  if q.is_finished then q else { q with items := q.items ++ [some chunk] }

/-- `close` (streaming_manager.py lines 33-39, 76-80, 114-118): set the
flag and enqueue the `None` sentinel. -/
def close (q : StreamQueue α) : StreamQueue α :=
  { items := q.items ++ [none], is_finished := true }

/-- The values a consumer iterating with `async for` observes: everything
up to (excluding) the first `None` sentinel (`__anext__` raises
`StopAsyncIteration` on `None`). -/
def consumed (q : StreamQueue α) : List α :=
  (q.items.takeWhile Option.isSome).filterMap id

end StreamQueue

/-- `AudioQueue` holds raw PCM byte chunks. -/
abbrev AudioQueue := StreamQueue (List Nat)

/-- `TextQueue` holds text fragments. -/
abbrev TextQueue := StreamQueue String

/-- `PCMQueue` holds synthesized PCM byte chunks. -/
abbrev PCMQueue := StreamQueue (List Nat)

/-! ## Wake-word detection — src/server/models/asr_engine.py -/

/-- Python `needle in hay` — substring containment (`"" in "" == True`). -/
def containsSub (w : List Char) : List Char → Bool
  | [] => w.isEmpty
  | c :: cs => w.isPrefixOf (c :: cs) || containsSub w cs

/-- `text.replace('，', '').replace('。', '').replace(' ', '')`
(asr_engine.py line 128): successive single-character deletions, i.e. a
filter.  Note only the fullwidth comma, the fullwidth period and the
ASCII space are removed — no other whitespace or punctuation. -/
def wakeNormalize (cs : List Char) : List Char :=
  cs.filter (fun c => !(c = '，' || c = '。' || c = ' '))

/-- `ASREngine.detect_wakeup_word` (asr_engine.py lines 117-133):
`False` on falsy (empty) text, otherwise substring containment of the
wake phrase in the normalized text. -/
def detect_wakeup_word (wakeup_word text : String) : Bool :=
  if text = "" then false
  else containsSub wakeup_word.data (wakeNormalize text.data)

/-- Python `s.replace(w, "", 1)`: delete the leftmost occurrence of `w`,
if any. -/
def replace_first (w : List Char) : List Char → List Char
  | [] => []
  | c :: cs =>
    if w.isPrefixOf (c :: cs) then (c :: cs).drop w.length
    else c :: replace_first w cs

/-- Python `s.strip()`: drop leading and trailing whitespace.  (`Char`'s
ASCII whitespace predicate; Python also strips some exotic Unicode
whitespace, which no input here contains.) -/
def pyStrip (cs : List Char) : List Char :=
  ((cs.dropWhile Char.isWhitespace).reverse.dropWhile Char.isWhitespace).reverse

/-! ## Action-command scanner — src/server/pipeline/conversation.py

`ACTION_PATTERN = re.compile(r"\[ACTION:([a-zA-Z_]+\([\w\d\s,.]*\))]")`
(conversation.py line 44).  The pattern is deterministic: after the
literal `[ACTION:` comes a maximal nonempty run of name characters, a
literal `(`, a maximal run of body characters, then `)]` — neither `)`
nor `]` belongs to a character class, so greedy matching never
backtracks into a successful parse.  `search` finds the leftmost match;
`group(1)` is the part after the colon up to and including the `)`. -/

/-- `[a-zA-Z_]`. -/
def isActionNameChar (c : Char) : Bool := c.isAlpha || c = '_'

/-- `[\w\d\s,.]` — word characters, digits, whitespace, comma, dot.
(ASCII reading of `\w`/`\s`; Python's `re` additionally accepts
non-ASCII word characters, which no verified input places inside a
tag.) -/
def isActionBodyChar (c : Char) : Bool :=
  c.isAlphanum || c = '_' || c.isWhitespace || c = ',' || c = '.'

/-- Try to match `ACTION_PATTERN` at the head of `cs`; on success return
`group(1)` (`name(args)`) and the remainder of the input after the
match. -/
def match_action_at (cs : List Char) : Option (List Char × List Char) :=
  match cs with
  | '[' :: 'A' :: 'C' :: 'T' :: 'I' :: 'O' :: 'N' :: ':' :: rest =>
    let name := rest.takeWhile isActionNameChar
    if name.isEmpty then none
    else
      match rest.drop name.length with
      | '(' :: rest2 =>
        let body := rest2.takeWhile isActionBodyChar
        (match rest2.drop body.length with
         | ')' :: ']' :: rest3 => some (name ++ '(' :: (body ++ [')']), rest3)
         | _ => none)
      | _ => none
  | _ => none

/-- `ACTION_PATTERN.search(s)` restricted to `group(1)`: the leftmost
match wins. -/
def search_action : List Char → Option (List Char)
  | [] => none
  | c :: cs =>
    match match_action_at (c :: cs) with
    | some (g, _) => some g
    | none => search_action cs

/-- Fuelled worker for `re.sub(ACTION_PATTERN, "", s)`: delete every
(non-overlapping, leftmost-first) match.  Each step either consumes a
whole match or emits one character, so `s.length` steps always
suffice — the fuel-exhausted branch is unreachable from `sub_action`. -/
def sub_action_fuel : Nat → List Char → List Char
  | 0, cs => cs
  | _ + 1, [] => []
  | fuel + 1, c :: cs =>
    match match_action_at (c :: cs) with
    | some (_, rest) => sub_action_fuel fuel rest
    | none => c :: sub_action_fuel fuel cs

/-- `re.sub(ACTION_PATTERN, "", s)`. -/
def sub_action (cs : List Char) : List Char := sub_action_fuel cs.length cs

/-! ## Conversation pipeline — src/server/pipeline/conversation.py

The ASR, LLM and TTS engines are external; a run of the pipeline is
determined by the interim transcript each inbound audio chunk produces
(`transcribe_stream`, one `Optional[str]` per chunk — `None` and `""`
are both falsy and are modelled as `""`) and by the reply fragments the
LLM streams (`chat_stream`).  The embedding below follows the data flow
of `run_pipeline`: `_asr_to_llm` consumes the transcripts and launches
`_llm_chat_and_parse` on wake-up; the latter is the only producer on the
`text_out` queue when launched, while `_asr_to_llm` itself pushes the
fixed no-wake reply when the audio stream ends without a wake-up. -/

/-- The no-wake fallback reply pushed by `_asr_to_llm`
(conversation.py line 148). -/
def NO_WAKE_REPLY : String := "对不起，我没有听到唤醒词，请再说一次。"

/-- The outcome of `_asr_to_llm` (conversation.py lines 110-151): its
local variables `full_transcription` and `action_command` (the latter is
initialized to `None` on line 115 and never assigned anywhere in the
function), the pipeline's `conversation_active` flag, and the
`command_text` handed to `_llm_chat_and_parse` at wake-up time. -/
structure AsrOutcome where
  full_transcription : String
  conversation_active : Bool
  command_text : Option String
  action_command : Option String
deriving DecidableEq, Repr

/-- One iteration of the `async for audio_chunk in audio_in` loop of
`_asr_to_llm` (conversation.py lines 117-138), applied to the interim
transcript the chunk produced.  A falsy transcript does nothing; an
accepted one is appended to `full_transcription`, and — while the flag
is down — the wake word is tested against the whole transcription; on
detection the flag goes up and
`command_text = full_transcription.replace(wakeup_word, "", 1).strip()`
is passed to the LLM task (line 129). -/
def asr_step (wakeup_word : String) (st : AsrOutcome) (interim_text : String) :
    AsrOutcome :=
  if interim_text = "" then st
  else
    let ft := st.full_transcription ++ interim_text
    if st.conversation_active = false ∧ detect_wakeup_word wakeup_word ft then
      { full_transcription := ft
        conversation_active := true
        command_text :=
          some (String.mk (pyStrip (replace_first wakeup_word.data ft.data)))
        action_command := st.action_command }
    else
      { st with full_transcription := ft }

/-- `_asr_to_llm` over the whole audio stream: fold of `asr_step` from
the fresh-session state (`conversation_active = False` after
`start_new_session`; empty transcription; both option fields `None`).
After the loop the function only logs `end_stream()`'s final text and —
when the wake-up never happened — pushes `NO_WAKE_REPLY` and closes
`text_out` (modelled in `text_out_final` below); it returns
`{"final_transcription": ..., "action_command": action_command}`. -/
def asr_to_llm (wakeup_word : String) (interims : List String) : AsrOutcome :=
  interims.foldl (asr_step wakeup_word) ⟨"", false, none, none⟩

/-- Loop state of `_llm_chat_and_parse` (conversation.py lines 154-191):
the accumulated `full_response`, the parsed `action_command`, and the
cleaned chunks pushed to `text_out` so far. -/
structure LlmParseState where
  full_response : List Char
  action_command : Option String
  pushes : List String
deriving DecidableEq, Repr

/-- One iteration of the `for chunk in llm_stream` loop (conversation.py
lines 168-183): append the chunk to `full_response`, search the whole
accumulated response for `ACTION_PATTERN`; if a match exists and no
action command was recorded yet, record `group(1)` and strip the pattern
from the current chunk only; otherwise forward the chunk unchanged.
A falsy («empty») cleaned chunk is not pushed. -/
def llm_step (st : LlmParseState) (chunk : String) : LlmParseState :=
  let fr := st.full_response ++ chunk.data
  match search_action fr, st.action_command with
  | some g, none =>
    let clean := String.mk (sub_action chunk.data)
    { full_response := fr
      action_command := some (String.mk g)
      pushes := st.pushes ++ (if clean = "" then [] else [clean]) }
  | _, _ =>
    { full_response := fr
      action_command := st.action_command
      pushes := st.pushes ++ (if chunk = "" then [] else [chunk]) }

/-- `_llm_chat_and_parse` over the whole fragment stream: the text
fragments pushed to `text_out` (which the function then closes, line
189) and the `action_command` its local variable ends with.  That local
value is only printed — it never leaves the function. -/
def llm_chat_and_parse (fragments : List String) : List String × Option String :=
  let st := fragments.foldl llm_step ⟨[], none, []⟩
  (st.pushes, st.action_command)

/-- The text fragments pushed onto the `text_out` queue during a
pipeline run.  When the wake-up fired, the launched `_llm_chat_and_parse`
task is the only producer (conversation.py lines 134 and 145); when it
never fired, `_asr_to_llm` pushes the fixed no-wake reply at stream end
(line 148). -/
def text_out_pushes (wakeup_word : String) (interims fragments : List String) :
    List String :=
  if (asr_to_llm wakeup_word interims).conversation_active then
    (llm_chat_and_parse fragments).1
  else
    [NO_WAKE_REPLY]

/-- The final state of the `text_out` queue: all pushes in order, then
the single `close()` (conversation.py line 149 resp. 189). -/
def text_out_final (wakeup_word : String) (interims fragments : List String) :
    TextQueue :=
  StreamQueue.close
    ((text_out_pushes wakeup_word interims fragments).foldl StreamQueue.put
      StreamQueue.empty)

/-- `ConversationPipeline.run_pipeline` (conversation.py lines 72-107) on
the non-exception path (the modelled engines are total; the `except`
branch returning `(False, None)` fires only when a task raises): awaits
`_asr_to_llm`, reads `final_result["action_command"]`, awaits the TTS
task and returns `(True, action_command)`. -/
def run_pipeline (wakeup_word : String) (interims fragments : List String) :
    Bool × Option String :=
  (true, (asr_to_llm wakeup_word interims).action_command)

/-! ## Connection guard — src/server/api/server.py -/

/-- The connection-related state of `PetCarServer` (server.py lines
26-30): the active car connection and the queue references of the
current session, each held as an opaque identifier. -/
structure PetCarServer where
  car_connection : Option Nat
  current_audio_queue : Option Nat
  current_pcm_queue : Option Nat
deriving DecidableEq, Repr

/-- Observable actions `_handle_connection` takes before entering a
per-path handler. -/
inductive ServerEffect where
  | closeConn (conn : Nat) (code : Nat) (reason : String)
  | dispatchPath (conn : Nat) (path : String)
deriving DecidableEq, Repr

/-- The entry of `PetCarServer._handle_connection` (server.py lines
33-43): with a car already connected, the new websocket is closed with
code 1008 and reason "Already connected" and the handler returns — this
happens before the `try` block, so no session is started, no state field
is touched and the `finally` cleanup does not run.  Otherwise the new
connection is recorded and control enters the per-path handler body
(lines 45-64), summarized as a dispatch effect. -/
def handle_connection (st : PetCarServer) (conn : Nat) (path : String) :
    PetCarServer × List ServerEffect :=
  match st.car_connection with
  | some _ => (st, [.closeConn conn 1008 "Already connected"])
  | none => ({ st with car_connection := some conn }, [.dispatchPath conn path])

/-! ## Specification-level observables used to state the theorems -/

/-- The running transcripts: the value of `full_transcription` right
after each accepted (truthy) interim text, starting from the
accumulated prefix `t0`. -/
def transcriptsFrom (t0 : String) : List String → List String
  | [] => []
  | i :: rest =>
    if i = "" then transcriptsFrom t0 rest
    else (t0 ++ i) :: transcriptsFrom (t0 ++ i) rest

/-- The running transcripts of a whole session. -/
def transcripts (interims : List String) : List String := transcriptsFrom "" interims

/-- The first running transcript on which the wake-word test fires — the
transcript `_asr_to_llm` sees at the moment `conversation_active` flips,
if it ever does. -/
def first_trigger (wakeup_word : String) (interims : List String) : Option String :=
  (transcripts interims).find? (fun p => detect_wakeup_word wakeup_word p)

/-- The `command_text` the code derives from the transcript `p` at
wake-up time (conversation.py line 129). -/
def command_of (wakeup_word p : String) : String :=
  String.mk (pyStrip (replace_first wakeup_word.data p.data))

/-- The state `VADDetector(sample_rate=16000, chunk_duration_ms=20)`
constructs (the configuration of `MicClient`): 640-byte frames. -/
def vadDefault : VADDetector :=
  { sample_rate := 16000, chunk_duration_ms := 20, chunk_size := 640
    silence_chunks_count := 0, active_speech_detected := false, frame_buffer := [] }

/-- A concrete classification backend for witnesses: a chunk whose first
byte is 1 is speech. -/
def speechClassifier : List Nat → Bool := fun c => c.headD 0 == 1

/-- A concrete 640-byte chunk `speechClassifier` labels speech. -/
def speechChunk640 : List Nat := 1 :: List.replicate 639 0

/-- A concrete 640-byte chunk `speechClassifier` labels silence. -/
def silenceChunk640 : List Nat := List.replicate 640 0

end PetCar

/-! # Theorems -/

namespace PetCar

/-! ## C10 — VADDetector construction -/

/-- C10: constructing a `VADDetector` with a sample rate outside
{8000, 16000, 32000, 48000} fails with a `ValueError` before any state
is created; for a supported rate construction succeeds, with
`chunk_size = sample_rate * chunk_duration_ms * 2 / 1000` bytes and a
pristine state. -/
theorem C10_vad_init_validates_rate (rate cd : Nat) :
    (rate ∉ SUPPORTED_VAD_RATES →
      VADDetector.init rate cd
        = .error "ValueError: sample rate not supported by WebRTC VAD") ∧
    (rate ∈ SUPPORTED_VAD_RATES →
      ∃ v, VADDetector.init rate cd = .ok v ∧
        v.chunk_size = rate * cd * 2 / 1000 ∧
        v.sample_rate = rate ∧
        v.chunk_duration_ms = cd ∧
        v.silence_chunks_count = 0 ∧
        v.active_speech_detected = false ∧
        v.frame_buffer = []) := by
  constructor
  · intro h
    simp [VADDetector.init, h]
  · intro h
    refine ⟨{ sample_rate := rate, chunk_duration_ms := cd
              chunk_size := rate * cd * 2 / 1000
              silence_chunks_count := 0, active_speech_detected := false
              frame_buffer := [] }, ?_, rfl, rfl, rfl, rfl, rfl, rfl⟩
    simp [VADDetector.init, h]

/-- C10 witness: the rejected rate 44100 and the accepted rate 16000 at
the 20 ms frame duration used by `MicClient` (640-byte chunks). -/
theorem C10_vad_init_validates_rate_witness :
    VADDetector.init 44100 20
      = .error "ValueError: sample rate not supported by WebRTC VAD" ∧
    ∃ v, VADDetector.init 16000 20 = .ok v ∧
      v.chunk_size = 16000 * 20 * 2 / 1000 ∧
      v.sample_rate = 16000 ∧
      v.chunk_duration_ms = 20 ∧
      v.silence_chunks_count = 0 ∧
      v.active_speech_detected = false ∧
      v.frame_buffer = [] :=
  ⟨(C10_vad_init_validates_rate 44100 20).1 (by decide),
   (C10_vad_init_validates_rate 16000 20).2 (by decide)⟩

/-! ## C9 — single active connection -/

/-- C9: while a car connection is active, `_handle_connection` closes a
second incoming connection immediately with status code 1008 and touches
nothing: no session is started, and the server state — the active
`car_connection` reference and the session queue references — is
returned unchanged. -/
theorem C9_second_connection_rejected (st : PetCarServer) (conn : Nat)
    (path : String) (c : Nat) (h : st.car_connection = some c) :
    handle_connection st conn path
      = (st, [.closeConn conn 1008 "Already connected"]) := by
  simp [handle_connection, h]

/-- C9 witness: connection 2 arriving on `/audio/in` while connection 1
is active with a live session. -/
theorem C9_second_connection_rejected_witness :
    handle_connection ⟨some 1, some 7, some 8⟩ 2 "/audio/in"
      = (⟨some 1, some 7, some 8⟩,
         [.closeConn 2 1008 "Already connected"]) :=
  C9_second_connection_rejected ⟨some 1, some 7, some 8⟩ 2 "/audio/in" 1 rfl

/-! ## C5 — queue push after close -/

/-- C5 counterexample: pushing onto a closed queue does not fail — the
`put` methods of `AudioQueue`, `TextQueue` and `PCMQueue` silently drop
the chunk (`if not self.is_finished` guards the enqueue and there is no
else branch, and no `ChannelClosed` error exists in the code): the queue
is returned unchanged, with only the close sentinel in it. -/
theorem C5_put_after_close_counterexample :
    StreamQueue.put (StreamQueue.close (StreamQueue.empty : TextQueue)) "x"
      = StreamQueue.close StreamQueue.empty ∧
    (StreamQueue.put (StreamQueue.close (StreamQueue.empty : TextQueue)) "x").items
      = [none] := by
  constructor <;> rfl

/-- C5 amended: once `close()` has been called on a stream queue, any
subsequent `put` of a chunk is silently ignored — the state is unchanged
and no error is raised (no `ChannelClosed` failure occurs anywhere). -/
theorem C5_put_after_close_ignored {α : Type} (q : StreamQueue α) (x : α)
    (h : q.is_finished = true) : StreamQueue.put q x = q := by
  simp [StreamQueue.put, h]

/-- C5 witness: a freshly closed text queue ignores a subsequent push. -/
theorem C5_put_after_close_ignored_witness :
    StreamQueue.put (StreamQueue.close (StreamQueue.empty : TextQueue)) "你好"
      = StreamQueue.close StreamQueue.empty :=
  C5_put_after_close_ignored (StreamQueue.close StreamQueue.empty) "你好" rfl

/-! ## C3 — frame round-trip -/

/-- C3 counterexample: an `AudioFrame` does not round-trip.
`AudioFrame(seq=10, pcm_data=b'', is_final=False).to_json()` deletes
`pcm_data`, and `parse_frame` on the resulting `{"seq":10,
"is_final":false}` object matches no dispatch branch and returns `None`
rather than the frame. -/
theorem C3_audio_frame_no_roundtrip :
    parse_frame (AudioFrame.to_json ⟨10, [], false⟩) = none ∧
    parse_frame (AudioFrame.to_json ⟨10, [], false⟩)
      ≠ some (.audio ⟨10, [], false⟩) :=
  ⟨rfl, fun h => Option.noConfusion h⟩

/-- C3 amended: `TextFrame`, `ControlCmd` and `StatusMsg` round-trip
through the codec field-for-field; `AudioFrame` does not — its encoder
drops the `pcm_data` payload and `parse_frame` returns `None` on every
encoded audio header. -/
theorem C3_frame_roundtrip_amended :
    (∀ f : TextFrame, parse_frame f.to_json = some (.text f)) ∧
    (∀ f : ControlCmd, parse_frame f.to_json = some (.control f)) ∧
    (∀ f : StatusMsg, parse_frame f.to_json = some (.status f)) ∧
    (∀ f : AudioFrame, parse_frame f.to_json = none) := by
  refine ⟨fun f => ?_, fun f => ?_, fun f => ?_, fun f => ?_⟩
  · cases f; rfl
  · rcases f with ⟨ty, v, extra⟩
    cases extra <;> rfl
  · rcases f with ⟨c, m, ref⟩
    cases ref <;> rfl
  · cases f; rfl

/-! ## The `_asr_to_llm` fold: wake gate correspondence -/

/-- Once the wake-up flag is up, the remaining fold never re-triggers:
the flag stays up and `command_text`/`action_command` are frozen. -/
theorem asr_fold_active (wk : String) :
    ∀ (interims : List String) (t0 : String) (cmd ac : Option String),
      ((interims.foldl (asr_step wk) ⟨t0, true, cmd, ac⟩).conversation_active = true)
      ∧ ((interims.foldl (asr_step wk) ⟨t0, true, cmd, ac⟩).command_text = cmd)
      ∧ ((interims.foldl (asr_step wk) ⟨t0, true, cmd, ac⟩).action_command = ac) := by
  intro interims
  induction interims with
  | nil => intro t0 cmd ac; exact ⟨rfl, rfl, rfl⟩
  | cons i rest ih =>
    intro t0 cmd ac
    by_cases hi : i = "" <;> simp [List.foldl_cons, asr_step, hi] <;> exact ih _ cmd ac

/-- Correspondence of the `_asr_to_llm` fold, from a not-yet-triggered
state with accumulated transcript `t0`, with the declarative first-match
view: the flag ends up exactly when some running transcript passes the
wake test, `command_text` is derived from the first such transcript, and
the function's local `action_command` is never assigned. -/
theorem asr_fold_spec (wk : String) :
    ∀ (interims : List String) (t0 : String) (ac : Option String),
      ((interims.foldl (asr_step wk) ⟨t0, false, none, ac⟩).conversation_active
        = ((transcriptsFrom t0 interims).find?
            (fun p => detect_wakeup_word wk p)).isSome)
      ∧ ((interims.foldl (asr_step wk) ⟨t0, false, none, ac⟩).command_text
        = ((transcriptsFrom t0 interims).find?
            (fun p => detect_wakeup_word wk p)).map (command_of wk))
      ∧ ((interims.foldl (asr_step wk) ⟨t0, false, none, ac⟩).action_command = ac) := by
  intro interims
  induction interims with
  | nil => intro t0 ac; exact ⟨rfl, rfl, rfl⟩
  | cons i rest ih =>
    intro t0 ac
    by_cases hi : i = ""
    · simpa [List.foldl_cons, asr_step, hi, transcriptsFrom] using ih t0 ac
    · by_cases hd : detect_wakeup_word wk (t0 ++ i) = true
      · have ha := asr_fold_active wk rest (t0 ++ i)
          (some (command_of wk (t0 ++ i))) ac
        simp [List.foldl_cons, asr_step, hi, hd, transcriptsFrom, command_of,
          List.find?_cons] at ha ⊢
        exact ha
      · have hd' : detect_wakeup_word wk (t0 ++ i) = false := by
          simpa using hd
        simpa [List.foldl_cons, asr_step, hi, hd', transcriptsFrom,
          List.find?_cons] using ih (t0 ++ i) ac

/-! ## C7 — wake-word gating -/

/-- C7 counterexample: on the transcript "小车 小车前进" the code detects
the wake phrase (the ASCII space is removed by the normalization), but
the prompt handed to the generation stage is the raw transcript
unchanged — `full_transcription.replace("小车小车", "", 1)` finds no
literal occurrence, so the wake phrase is *not* removed (the prompt is
not the remainder "前进"; it even still passes the wake test itself). -/
theorem C7_wake_prompt_counterexample :
    (asr_to_llm "小车小车" ["小车 小车前进"]).conversation_active = true ∧
    (asr_to_llm "小车小车" ["小车 小车前进"]).command_text = some "小车 小车前进" ∧
    (asr_to_llm "小车小车" ["小车 小车前进"]).command_text ≠ some "前进" ∧
    detect_wakeup_word "小车小车" "小车 小车前进" = true := by
  decide

/-- C7 amended: while the flag is down, the wake phrase is detected on
the first running transcript that contains it after removing only the
fullwidth comma, the fullwidth period and the ASCII space (no other
whitespace or punctuation); the flag then flips (at most once per
session — `find?` takes the first trigger and `asr_fold_active`
shows the flag never re-arms), and the prompt handed to the generation
stage is that raw transcript with its first *literal* occurrence of the
wake phrase (if any) deleted and then whitespace-stripped — not the
normalized-match occurrence. -/
theorem C7_wake_gate_amended (wk : String) (interims : List String) :
    ((asr_to_llm wk interims).conversation_active
      = (first_trigger wk interims).isSome)
    ∧ ((asr_to_llm wk interims).command_text
      = (first_trigger wk interims).map (command_of wk)) := by
  have h := asr_fold_spec wk interims "" none
  exact ⟨h.1, h.2.1⟩

/-! ## C2 — no-wake fallback -/

/-- C2 counterexample: when the audio stream ends without the wake
phrase ever being detected, `run_pipeline` does *not* report a failure:
it returns `(True, None)` — success is `True` on the no-wake path (the
`except` branch is the only source of `False`).  The fixed apology is
pushed, as the claim also states. -/
theorem C2_no_wake_success_counterexample :
    ¬ ((run_pipeline "小车小车" ["你好"] []).1 = false) ∧
    text_out_pushes "小车小车" ["你好"] [] = [NO_WAKE_REPLY] := by
  decide

/-- C2 amended: when no running transcript ever triggers the wake test,
the orchestrator pushes the fixed non-empty "didn't hear the wake
phrase" reply into the reply-text channel and then closes it (the close
sentinel follows the reply), and `run_pipeline` returns with **no**
action command but with `success = True` — the no-wake outcome is not
reflected in the success flag. -/
theorem C2_no_wake_fallback (wk : String) (interims fragments : List String)
    (h : first_trigger wk interims = none) :
    text_out_pushes wk interims fragments = [NO_WAKE_REPLY] ∧
    (text_out_final wk interims fragments).items = [some NO_WAKE_REPLY, none] ∧
    NO_WAKE_REPLY ≠ "" ∧
    run_pipeline wk interims fragments = (true, none) := by
  have hs := asr_fold_spec wk interims "" none
  have hact : (asr_to_llm wk interims).conversation_active = false := by
    have h1 := hs.1
    rw [asr_to_llm]
    rw [h1]
    have : transcriptsFrom "" interims = transcripts interims := rfl
    rw [this]
    rw [show (transcripts interims).find? (fun p => detect_wakeup_word wk p)
          = first_trigger wk interims from rfl, h]
    rfl
  have hpush : text_out_pushes wk interims fragments = [NO_WAKE_REPLY] := by
    simp [text_out_pushes, hact]
  refine ⟨hpush, ?_, by decide, ?_⟩
  · rw [text_out_final, hpush]
    rfl
  · rw [run_pipeline]
    have h3 := hs.2.2
    rw [show (asr_to_llm wk interims).action_command
          = (interims.foldl (asr_step wk) ⟨"", false, none, none⟩).action_command
        from rfl, h3]

/-- C2 witness: a session whose only transcript is "你好" (no wake
phrase) with no LLM fragments. -/
theorem C2_no_wake_fallback_witness :
    text_out_pushes "小车小车" ["你好"] ["x"] = [NO_WAKE_REPLY] ∧
    (text_out_final "小车小车" ["你好"] ["x"]).items = [some NO_WAKE_REPLY, none] ∧
    NO_WAKE_REPLY ≠ "" ∧
    run_pipeline "小车小车" ["你好"] ["x"] = (true, none) :=
  C2_no_wake_fallback "小车小车" ["你好"] ["x"] (by decide)

/-! ## C1 — action-command extraction -/

/-- C1 (code bug): on the fragment stream
`["OK. [ACTION:forward(5)]", " go [ACTION:stop()]"]` after a successful
wake-up, `_llm_chat_and_parse` does parse the first action
`forward(5)` and strips only that first tag, but (i) `run_pipeline`
still returns `(True, None)` — `_asr_to_llm`'s local `action_command`
(conversation.py line 115) is never assigned, so the parsed command
never reaches the caller, contradicting `run_pipeline`'s documented
return value and `server.py`'s `if success and action_cmd:` dispatch —
and (ii) the second tag is forwarded to the synthesis channel verbatim
(a complete `[ACTION:...]` tag is found in the concatenated text_out
fragments). -/
theorem C1_action_command_dropped :
    llm_chat_and_parse ["OK. [ACTION:forward(5)]", " go [ACTION:stop()]"]
      = (["OK. ", " go [ACTION:stop()]"], some "forward(5)") ∧
    (asr_to_llm "小车小车" ["小车小车前进"]).conversation_active = true ∧
    run_pipeline "小车小车" ["小车小车前进"]
        ["OK. [ACTION:forward(5)]", " go [ACTION:stop()]"] = (true, none) ∧
    (search_action (String.join (llm_chat_and_parse
        ["OK. [ACTION:forward(5)]", " go [ACTION:stop()]"]).1).data)
      = some "stop()".data := by
  decide

/-! ## VAD state-machine lemmas -/

/-- A successful construction yields exactly the documented fresh state,
and only for a supported rate. -/
theorem vad_init_ok (rate cd : Nat) (vad : VADDetector)
    (h : VADDetector.init rate cd = .ok vad) :
    vad = ⟨rate, cd, rate * cd * 2 / 1000, 0, false, []⟩
      ∧ rate ∈ SUPPORTED_VAD_RATES := by
  by_cases hr : rate ∈ SUPPORTED_VAD_RATES
  · rw [VADDetector.init, if_pos hr] at h
    exact ⟨(Except.ok.inj h).symm, hr⟩
  · rw [VADDetector.init, if_neg hr] at h
    exact absurd h (by simp)

/-- A bounded deque append never exceeds the bound. -/
theorem dequeAppend_length_le (m : Nat) (buf : List (List Nat)) (x : List Nat) :
    (dequeAppend m buf x).length ≤ m := by
  rw [dequeAppend]
  split
  next h => rw [List.length_drop]; omega
  next h => simp only [List.length_append, List.length_cons] at h ⊢; omega

/-- Running the detector over chunks the backend classifies as silence,
starting inactive, emits no end-of-utterance signal, stays inactive and
keeps the silence count; only the lead buffer changes. -/
theorem runVad_inactive (classify : List Nat → Bool) :
    ∀ (chunks : List (List Nat)) (sr cd csz cnt : Nat) (b : List (List Nat)),
      (∀ ch ∈ chunks, classify ch = false) →
      ∃ b', runVad classify ⟨sr, cd, csz, cnt, false, b⟩ chunks
        = (List.replicate chunks.length false, ⟨sr, cd, csz, cnt, false, b'⟩) := by
  intro chunks
  induction chunks with
  | nil => intro sr cd csz cnt b _; exact ⟨b, rfl⟩
  | cons ch rest ih =>
    intro sr cd csz cnt b hall
    have hch : classify ch = false := hall ch (by simp)
    have hrest : ∀ c ∈ rest, classify c = false := fun c hc => hall c (by simp [hc])
    by_cases hlen : ch.length = csz
    · obtain ⟨b', hb'⟩ := ih sr cd csz cnt (dequeAppend FRAME_BUFFER_MAXLEN b ch) hrest
      refine ⟨b', ?_⟩
      simp [runVad, VADDetector.process_chunk, VADDetector.is_silence_end,
        hlen, hch, hb', List.replicate_succ]
    · obtain ⟨b', hb'⟩ := ih sr cd csz cnt b hrest
      refine ⟨b', ?_⟩
      simp [runVad, VADDetector.process_chunk, VADDetector.is_silence_end,
        hlen, hch, hb', List.replicate_succ]

/-! ## C8 — no utterance end without prior speech -/

/-- C8: from a freshly constructed detector state, processing any finite
sequence of frames the backend classifies as non-speech never makes
`is_silence_end` return true at any point — no utterance end is ever
signalled without a prior speech frame. -/
theorem C8_silence_only_never_ends (rate cd : Nat) (vad : VADDetector)
    (classify : List Nat → Bool) (chunks : List (List Nat))
    (hinit : VADDetector.init rate cd = .ok vad)
    (hns : ∀ ch ∈ chunks, classify ch = false) :
    (runVad classify vad chunks).1 = List.replicate chunks.length false := by
  obtain ⟨hvad, -⟩ := vad_init_ok rate cd vad hinit
  subst hvad
  obtain ⟨b', hb'⟩ := runVad_inactive classify chunks rate cd
    (rate * cd * 2 / 1000) 0 [] hns
  rw [hb']

/-- C8 witness: a correctly-sized silence frame followed by a wrong-sized
frame (also classified non-speech), on the 16 kHz / 20 ms detector. -/
theorem C8_silence_only_never_ends_witness :
    (runVad (fun _ => false) vadDefault [silenceChunk640, [0]]).1
      = List.replicate 2 false :=
  C8_silence_only_never_ends 16000 20 vadDefault (fun _ => false)
    [silenceChunk640, [0]] rfl (by simp)

/-- `runVad` splits over list append: the second half runs from the
first half's final state. -/
theorem runVad_append (classify : List Nat → Bool) (xs ys : List (List Nat)) :
    ∀ v : VADDetector,
      runVad classify v (xs ++ ys)
        = ((runVad classify v xs).1
             ++ (runVad classify (runVad classify v xs).2 ys).1,
           (runVad classify (runVad classify v xs).2 ys).2) := by
  induction xs with
  | nil => intro v; rfl
  | cons x xs ih =>
    intro v
    simp only [List.cons_append, runVad, List.append_eq]
    rw [ih]

/-- Signals of a run of correctly-sized silence frames while speech is
active with trailing-silence count `cnt ≤ SILENCE_CHUNK_COUNT`: the
`i`-th frame (0-based) raises the end-of-utterance signal exactly when
it takes the count to `SILENCE_CHUNK_COUNT + 1`; after the signal fires
the detector is inactive again and stays silent for the rest of the
run. -/
theorem runVad_trailing_silence_signals (classify : List Nat → Bool)
    (sil : List Nat) (csz : Nat) (hc : classify sil = false)
    (hlen : sil.length = csz) :
    ∀ (k cnt sr cd : Nat) (b : List (List Nat)),
      cnt ≤ SILENCE_CHUNK_COUNT →
      (runVad classify ⟨sr, cd, csz, cnt, true, b⟩ (List.replicate k sil)).1
        = (List.range k).map
            (fun i => decide (cnt + i + 1 = SILENCE_CHUNK_COUNT + 1)) := by
  intro k
  induction k with
  | zero => intro cnt sr cd b _; rfl
  | succ k ih =>
    intro cnt sr cd b hcnt
    rw [List.replicate_succ, List.range_succ_eq_map, List.map_cons, List.map_map]
    by_cases h50 : SILENCE_CHUNK_COUNT < cnt + 1
    · simp [runVad, VADDetector.process_chunk, VADDetector.is_silence_end,
        hlen, hc, h50]
      refine ⟨by omega, ?_⟩
      obtain ⟨b', hb'⟩ := runVad_inactive classify (List.replicate k sil)
        sr cd csz 0 [] (by intro c hc'; rw [List.eq_of_mem_replicate hc']; exact hc)
      rw [hb']
      symm
      simp only [Prod.fst]
      rw [List.eq_replicate_iff]
      refine ⟨by simp, ?_⟩
      intro x hx
      simp only [List.mem_map] at hx
      obtain ⟨i, -, hi⟩ := hx
      rw [← hi]
      simp [Function.comp]
      omega
    · have hstep : cnt + 1 ≤ SILENCE_CHUNK_COUNT := by omega
      simp [runVad, VADDetector.process_chunk, VADDetector.is_silence_end,
        hlen, hc, h50]
      rw [ih (cnt + 1) sr cd _ hstep]
      constructor
      · omega
      · apply List.map_congr_left
        intro a _
        simp [Function.comp]
        omega

/-- Final state of a trailing-silence run that ends exactly on the frame
that crosses the threshold: the detector is fully reset — inactive, zero
count, empty buffer. -/
theorem runVad_trailing_silence_reset (classify : List Nat → Bool)
    (sil : List Nat) (csz : Nat) (hc : classify sil = false)
    (hlen : sil.length = csz) :
    ∀ (k cnt sr cd : Nat) (b : List (List Nat)),
      cnt ≤ SILENCE_CHUNK_COUNT →
      cnt + k = SILENCE_CHUNK_COUNT + 1 →
      (runVad classify ⟨sr, cd, csz, cnt, true, b⟩ (List.replicate k sil)).2
        = ⟨sr, cd, csz, 0, false, []⟩ := by
  intro k
  induction k with
  | zero => intro cnt sr cd b hcnt hk; omega
  | succ k ih =>
    intro cnt sr cd b hcnt hk
    rw [List.replicate_succ]
    by_cases h50 : SILENCE_CHUNK_COUNT < cnt + 1
    · have hk0 : k = 0 := by omega
      subst hk0
      simp [runVad, VADDetector.process_chunk, VADDetector.is_silence_end,
        hlen, hc, h50]
    · simp [runVad, VADDetector.process_chunk, VADDetector.is_silence_end,
        hlen, hc, h50]
      exact ih (cnt + 1) sr cd _ (by omega) (by omega)

/-! ## C4 — end-of-utterance detection and reset -/

/-- C4: from a freshly constructed detector, one speech frame followed
by consecutive silence frames yields no end-of-utterance signal while
the trailing-silence count is at most `SILENCE_CHUNK_COUNT`, the signal
fires exactly on the frame that takes the count past the threshold (the
`SILENCE_CHUNK_COUNT + 1`-st silence frame), and on firing the state is
fully reset to the freshly constructed one — so an identical subsequent
sequence reproduces the identical signal sequence. -/
theorem C4_vad_end_detection (rate cd : Nat) (vad : VADDetector)
    (classify : List Nat → Bool) (sc sil : List Nat) (k : Nat)
    (hinit : VADDetector.init rate cd = .ok vad)
    (hsc : sc.length = vad.chunk_size) (hsil : sil.length = vad.chunk_size)
    (hspeech : classify sc = true) (hsilence : classify sil = false) :
    (runVad classify vad (sc :: List.replicate k sil)).1
      = false :: (List.range k).map
          (fun i => decide (i + 1 = SILENCE_CHUNK_COUNT + 1))
    ∧ (runVad classify vad
        (sc :: List.replicate (SILENCE_CHUNK_COUNT + 1) sil)).2 = vad
    ∧ (runVad classify vad ((sc :: List.replicate (SILENCE_CHUNK_COUNT + 1) sil)
          ++ (sc :: List.replicate (SILENCE_CHUNK_COUNT + 1) sil))).1
      = (runVad classify vad (sc :: List.replicate (SILENCE_CHUNK_COUNT + 1) sil)).1
          ++ (runVad classify vad (sc :: List.replicate (SILENCE_CHUNK_COUNT + 1) sil)).1 := by
  obtain ⟨hvad, -⟩ := vad_init_ok rate cd vad hinit
  subst hvad
  simp only [] at hsc hsil
  have hstep : ∀ m, runVad classify ⟨rate, cd, rate * cd * 2 / 1000, 0, false, []⟩
      (sc :: List.replicate m sil)
      = ((false : Bool) :: (runVad classify
            ⟨rate, cd, rate * cd * 2 / 1000, 0, true, []⟩ (List.replicate m sil)).1,
         (runVad classify
            ⟨rate, cd, rate * cd * 2 / 1000, 0, true, []⟩ (List.replicate m sil)).2) := by
    intro m
    simp [runVad, VADDetector.process_chunk, VADDetector.is_silence_end, hsc, hspeech]
  have hsig : ∀ m, (runVad classify
      ⟨rate, cd, rate * cd * 2 / 1000, 0, true, []⟩ (List.replicate m sil)).1
      = (List.range m).map (fun i => decide (i + 1 = SILENCE_CHUNK_COUNT + 1)) := by
    intro m
    rw [runVad_trailing_silence_signals classify sil (rate * cd * 2 / 1000)
      hsilence hsil m 0 rate cd [] (by omega)]
    apply List.map_congr_left
    intro a _
    rw [decide_eq_decide]
    omega
  have hreset : (runVad classify ⟨rate, cd, rate * cd * 2 / 1000, 0, false, []⟩
      (sc :: List.replicate (SILENCE_CHUNK_COUNT + 1) sil)).2
      = ⟨rate, cd, rate * cd * 2 / 1000, 0, false, []⟩ := by
    rw [hstep]
    exact runVad_trailing_silence_reset classify sil (rate * cd * 2 / 1000)
      hsilence hsil (SILENCE_CHUNK_COUNT + 1) 0 rate cd [] (by omega) (by omega)
  refine ⟨?_, hreset, ?_⟩
  · rw [hstep k]
    rw [hsig k]
  · rw [runVad_append, hreset]

/-- C4 witness: the 16 kHz / 20 ms detector with a concrete
first-byte-based classifier, one speech frame and 52 silence frames
(and, for the reset/re-trigger conjuncts, exactly 51 = threshold + 1). -/
theorem C4_vad_end_detection_witness :
    (runVad speechClassifier vadDefault
        (speechChunk640 :: List.replicate 52 silenceChunk640)).1
      = false :: (List.range 52).map
          (fun i => decide (i + 1 = SILENCE_CHUNK_COUNT + 1))
    ∧ (runVad speechClassifier vadDefault
        (speechChunk640 :: List.replicate (SILENCE_CHUNK_COUNT + 1) silenceChunk640)).2
      = vadDefault
    ∧ (runVad speechClassifier vadDefault
        ((speechChunk640 :: List.replicate (SILENCE_CHUNK_COUNT + 1) silenceChunk640)
          ++ (speechChunk640 :: List.replicate (SILENCE_CHUNK_COUNT + 1) silenceChunk640))).1
      = (runVad speechClassifier vadDefault
          (speechChunk640 :: List.replicate (SILENCE_CHUNK_COUNT + 1) silenceChunk640)).1
        ++ (runVad speechClassifier vadDefault
          (speechChunk640 :: List.replicate (SILENCE_CHUNK_COUNT + 1) silenceChunk640)).1 :=
  C4_vad_end_detection 16000 20 vadDefault speechClassifier speechChunk640
    silenceChunk640 52 rfl
    (by rw [speechChunk640, List.length_cons, List.length_replicate]; rfl)
    (by rw [silenceChunk640, List.length_replicate]; rfl) rfl rfl

/-! ## C6 — lead-buffer behaviour -/

set_option maxRecDepth 4000 in
/-- C6 counterexample: a pre-speech silence frame followed by a speech
frame.  `process_chunk` classifies the second frame as speech but does
*not* clear the lead buffer — the pre-speech frame is still in
`frame_buffer` afterwards (the drain is left to the callers of
`get_buffered_frames`), contradicting the claim that the buffer holds no
frames the instant speech is confirmed. -/
theorem C6_lead_buffer_not_cleared_on_speech :
    (VADDetector.process_chunk speechClassifier
        ((VADDetector.process_chunk speechClassifier vadDefault silenceChunk640).2)
        speechChunk640).1 = true ∧
    (VADDetector.process_chunk speechClassifier
        ((VADDetector.process_chunk speechClassifier vadDefault silenceChunk640).2)
        speechChunk640).2.frame_buffer = [silenceChunk640] := by
  constructor <;> rfl

/-- C6 amended: under every `process_chunk` call the `frame_buffer`
deque (i) never holds more than `FRAME_BUFFER_MAXLEN = 25` frames, the
oldest being evicted on overflow; (ii) is left untouched by a frame
classified as speech — it is *not* cleared at speech onset by
`process_chunk` itself (clearing happens only in `get_buffered_frames`,
`is_silence_end` and `reset`); and (iii) receives every well-sized
non-speech frame, whether observed before speech onset or as trailing
silence while speech is active — the same deque serves both roles. -/
theorem C6_lead_buffer_amended (classify : List Nat → Bool) :
    (∀ (vad : VADDetector) (chunks : List (List Nat)),
      vad.frame_buffer.length ≤ FRAME_BUFFER_MAXLEN →
      (foldProcess classify vad chunks).frame_buffer.length ≤ FRAME_BUFFER_MAXLEN)
    ∧ (∀ (vad : VADDetector) (ch : List Nat),
        ch.length = vad.chunk_size → classify ch = true →
        (VADDetector.process_chunk classify vad ch).2.frame_buffer
          = vad.frame_buffer)
    ∧ (∀ (vad : VADDetector) (ch : List Nat),
        ch.length = vad.chunk_size → classify ch = false →
        (VADDetector.process_chunk classify vad ch).2.frame_buffer
          = dequeAppend FRAME_BUFFER_MAXLEN vad.frame_buffer ch) := by
  refine ⟨?_, ?_, ?_⟩
  · intro vad chunks
    induction chunks generalizing vad with
    | nil => intro h; exact h
    | cons ch rest ih =>
      intro h
      rw [foldProcess, List.foldl_cons]
      apply ih
      rw [VADDetector.process_chunk]
      split
      · exact h
      · split
        · exact h
        · exact dequeAppend_length_le FRAME_BUFFER_MAXLEN _ ch
  · intro vad ch h1 h2
    simp [VADDetector.process_chunk, h1, h2]
  · intro vad ch h1 h2
    simp [VADDetector.process_chunk, h1, h2]
    split <;> rfl

/-- C6 witness: the bound after a silence frame, the untouched buffer on
a speech frame, and the deque-append on a silence frame, all on the
fresh 16 kHz / 20 ms detector. -/
theorem C6_lead_buffer_amended_witness :
    (foldProcess speechClassifier vadDefault [silenceChunk640]).frame_buffer.length
      ≤ FRAME_BUFFER_MAXLEN
    ∧ (VADDetector.process_chunk speechClassifier vadDefault
        speechChunk640).2.frame_buffer = vadDefault.frame_buffer
    ∧ (VADDetector.process_chunk speechClassifier vadDefault
        silenceChunk640).2.frame_buffer
      = dequeAppend FRAME_BUFFER_MAXLEN vadDefault.frame_buffer silenceChunk640 :=
  ⟨(C6_lead_buffer_amended speechClassifier).1 vadDefault [silenceChunk640]
      (by decide),
   (C6_lead_buffer_amended speechClassifier).2.1 vadDefault speechChunk640
      (by rw [speechChunk640, List.length_cons, List.length_replicate]; rfl) rfl,
   (C6_lead_buffer_amended speechClassifier).2.2 vadDefault silenceChunk640
      (by rw [silenceChunk640, List.length_replicate]; rfl) rfl⟩

end PetCar
